import Mathlib

/-!
A shallow embedding of the notify-rust zbus backend (src/xdg/bus.rs and
src/xdg/zbus_rs.rs): bus-identity construction, the portal capability probe,
the dual-protocol send path, the notification handle operations and the
action/close signal listener, together with theorems about them.

Machine integers are embedded as `Nat` with explicit `% 2 ^ 32` where u32
overflow matters (the portal identifier counter).  Fallible calls are
embedded as `Except DBusError`; the bus, the filesystem and the incoming
signal stream are passed in explicitly as values.
-/

namespace NotifyRust

/-- Modelled from the spec: the legacy notification service's well-known bus
name (the crate constant `NOTIFICATION_DEFAULT_BUS`, declared outside the
given sources). -/
def NOTIFICATION_DEFAULT_BUS : String := "org.freedesktop.Notifications"

/-- Modelled from the spec: the portal service's well-known bus name (the
crate constant `NOTIFICATION_PORTAL_BUS`, declared outside the given
sources). -/
def NOTIFICATION_PORTAL_BUS : String := "org.freedesktop.portal.Desktop"

/-- Modelled from the spec: the legacy object path constant. -/
def NOTIFICATION_OBJECTPATH : String := "/org/freedesktop/Notifications"

/-- Modelled from the spec: the legacy interface name constant. -/
def NOTIFICATION_INTERFACE : String := "org.freedesktop.Notifications"

/-- Modelled from the spec: the portal object path constant. -/
def NOTIFICATION_PORTAL_OBJECTPATH : String := "/org/freedesktop/portal/desktop"

/-- Modelled from the spec: the portal interface name constant. -/
def NOTIFICATION_PORTAL_INTERFACE : String := "org.freedesktop.portal.Notification"

/-- `skip_first_slash` of src/xdg/bus.rs: drop one leading `/` if present. -/
def skip_first_slash (s : String) : String :=
  match s.data with
  | '/' :: rest => String.mk rest
  | _ => s

/-- `PathBuf::from(base).join(p)` as used in `namespaced_custom`: for an
absolute `p` (leading separator) the standard library's join replaces the
base path entirely; otherwise it appends `p` behind a separator. -/
def pathBufJoin (base p : String) : String :=
  match p.data with
  | '/' :: _ => p
  | _ => base ++ "/" ++ p

/-- `.replace('/', ".")` on a string: every separator becomes a dot. -/
def replace_slashes (s : String) : String :=
  String.mk (s.data.map (fun c => if c = '/' then '.' else c))

/-- `NotificationBus::namespaced_custom` of src/xdg/bus.rs: join the custom
path under `/de/hoodie/Notification`, drop one leading separator, replace
the remaining separators with dots.  `to_str` always succeeds on valid
UTF-8, so the option is always populated here. -/
def namespaced_custom (custom_path : String) : Option String :=
  some (replace_slashes (skip_first_slash (pathBufJoin "/de/hoodie/Notification" custom_path)))

/-- A character allowed inside a well-known bus-name element. -/
def isBusNameChar (c : Char) : Bool :=
  c.isAlpha || c.isDigit || c = '_' || c = '-'

/-- A well-known bus-name element: nonempty, no leading digit, allowed
characters only. -/
def isValidNameElement (e : List Char) : Bool :=
  match e with
  | [] => false
  | c :: rest => (c.isAlpha || c = '_' || c = '-') && rest.all isBusNameChar

/-- Split a character list at every dot. -/
def splitOnDot : List Char → List (List Char)
  | [] => [[]]
  | c :: rest =>
    let r := splitOnDot rest
    if c = '.' then [] :: r
    else
      match r with
      | e :: es => (c :: e) :: es
      | [] => [[c]]

/-- Modelled from the spec: the external bus-name syntax validator
(`zbus::names::WellKnownName::try_from`), which the spec treats as an
external collaborator: a well-known name has at least two dot-separated
elements, each nonempty, of allowed characters with no leading digit, and
at most 255 characters in total. -/
def isValidWellKnownName (s : String) : Bool :=
  decide (s.data.length ≤ 255) &&
    (let elems := splitOnDot s.data
     decide (2 ≤ elems.length) && elems.all isValidNameElement)

/-- `NotificationBus` of src/xdg/bus.rs: a validated well-known bus name. -/
structure NotificationBus where
  name : String
deriving DecidableEq, Repr

/-- `NotificationBus::default()`: the legacy notification bus identity. -/
def NotificationBus.defaultBus : NotificationBus :=
  ⟨NOTIFICATION_DEFAULT_BUS⟩

/-- `NotificationBus::portal()`: the portal bus identity. -/
def NotificationBus.portal : NotificationBus :=
  ⟨NOTIFICATION_PORTAL_BUS⟩

/-- `NotificationBus::as_str`. -/
def NotificationBus.as_str (b : NotificationBus) : String :=
  b.name

/-- `NotificationBus::custom` of src/xdg/bus.rs: namespace the custom path,
then accept it only if it parses as a well-known bus name. -/
def NotificationBus.custom (custom_path : String) : Option NotificationBus :=
  match namespaced_custom custom_path with
  | none => none
  | some n => if isValidWellKnownName n then some ⟨n⟩ else none

/-- Modelled from the spec: `Urgency` of the notification data model (an
external collaborator of this core). -/
inductive Urgency
  | low
  | normal
  | critical
deriving DecidableEq, Repr

/-- Modelled from the spec: the notification hints read by this core — the
urgency hint and the image-path hint; every other hint is opaque here. -/
inductive Hint
  | urgency (u : Urgency)
  | imagePath (path : String)
  | other (key value : String)
deriving DecidableEq, Repr

/-- Modelled from the spec: `CloseReason`, the semantic close cause. -/
inductive CloseReason
  | expired
  | dismissedByUser
  | closeNotificationCall
  | unknown (code : Nat)
deriving DecidableEq, Repr

/-- Modelled from the spec: the numeric close-reason mapping
(`From<u32> for CloseReason`, declared outside the given sources):
1 is Expired, 2 DismissedByUser, 3 CloseNotificationCall, anything else
Unknown with the raw code. -/
def CloseReason.fromCode (code : Nat) : CloseReason :=
  match code with
  | 1 => CloseReason.expired
  | 2 => CloseReason.dismissedByUser
  | 3 => CloseReason.closeNotificationCall
  | c => CloseReason.unknown c

/-- Modelled from the spec: `ActionResponse` — a custom action was invoked,
or the notification was closed with a reason. -/
inductive ActionResponse
  | custom (action : String)
  | closed (reason : CloseReason)
deriving DecidableEq, Repr

/-- Modelled from the spec: the logical notification read by this core —
the fields the zbus backend marshals, plus the bus identity recorded on it
and the optional pre-assigned identifier. -/
structure Notification where
  appname : String
  summary : String
  body : String
  icon : String
  actions : List String
  hints : List Hint
  timeout : Int
  id : Option Nat
  bus : NotificationBus
deriving DecidableEq, Repr

/-- `Notification::get_hints`: the hints of a notification. -/
def Notification.get_hints (n : Notification) : List Hint :=
  n.hints

/-- A transport-level error (zbus::Error), opaque to this core. -/
structure DBusError where
  message : String
deriving DecidableEq, Repr

/-- The replies the bus environment would give to the one send performed by
`send_notification_via_connection_at_bus`: the deserialized u32 of a
`Notify` reply (errors cover both the call and the decode), and the
outcome of an `AddNotification` call, which carries no reusable value. -/
structure BusEnv where
  notifyReply : Except DBusError Nat
  addReply : Except DBusError Unit

/-- The process-wide mutable state: the portal identifier counter `APP_ID`
(an `AtomicU32`). -/
structure ProcState where
  appId : Nat
deriving DecidableEq, Repr

/-- `APP_ID: AtomicU32 = AtomicU32::new(1)`: the counter is seeded at 1. -/
def initState : ProcState :=
  ⟨1⟩

/-- `APP_ID.fetch_add(1, Ordering::Relaxed)`: return the current value and
store the incremented value, wrapping at `2 ^ 32` as an `AtomicU32` does. -/
def fetch_add (s : ProcState) : Nat × ProcState :=
  (s.appId, ⟨(s.appId + 1) % 2 ^ 32⟩)

/-- The encoded icon payload of the portal dictionary: the themed form
wrapping a list of names, or the inline-bytes form. -/
inductive IconPayload
  | themed (names : List String)
  | bytes (data : List Nat)
deriving DecidableEq, Repr

/-- The image-path hint lookup of the portal branch:
`notification.get_hints().find(|hint| matches!(hint, Hint::ImagePath(_)))`. -/
def findImagePathHint (notification : Notification) : Option Hint :=
  notification.get_hints.find? (fun h =>
    match h with
    | Hint.imagePath _ => true
    | _ => false)

/-- The icon encoding of the portal branch: start from the themed form
wrapping the notification's icon name; only when that name is empty and an
image-path hint names a readable file, switch to the inline-bytes form.
`fs::read` is passed in as `readFile`. -/
def encodeIcon (notification : Notification) (readFile : String → Option (List Nat)) :
    IconPayload :=
  let themedIcon := IconPayload.themed [notification.icon]
  if notification.icon = "" then
    match findImagePathHint notification with
    | some (Hint.imagePath image_path) =>
      match readFile image_path with
      | some image_data => IconPayload.bytes image_data
      | none => themedIcon
    | _ => themedIcon
  else themedIcon

/-- The priority encoding of the portal branch: the first urgency hint is
mapped Low to "low", Normal to "normal", Critical to "urgent"; without an
urgency hint the priority is "normal". -/
def encodePriority (notification : Notification) : String :=
  match notification.get_hints.find? (fun h =>
    match h with
    | Hint.urgency _ => true
    | _ => false) with
  | some (Hint.urgency u) =>
    match u with
    | Urgency.low => "low"
    | Urgency.normal => "normal"
    | Urgency.critical => "urgent"
  | _ => "normal"

/-- The key/value payload of an `AddNotification` call: exactly the keys
`title`, `body`, `priority`, `icon`. -/
structure PortalDict where
  title : String
  body : String
  priority : String
  icon : IconPayload
deriving DecidableEq, Repr

/-- The portal dictionary built by the portal branch. -/
def encodePortalDict (notification : Notification)
    (readFile : String → Option (List Nat)) : PortalDict :=
  { title := notification.summary
    body := notification.body
    priority := encodePriority notification
    icon := encodeIcon notification readFile }

/-- The one wire request a send issues: an `AddNotification` call keyed by
the string form of the identifier, or a legacy `Notify` call carrying the
marshalled notification fields (the hint mapping is kept as the hint list,
its map encoding living outside the given sources). -/
inductive SentRequest
  | addNotification (bus : NotificationBus) (idStr : String) (dict : PortalDict)
  | notify (bus : NotificationBus) (appname : String) (id : Nat) (icon : String)
      (summary : String) (body : String) (actions : List String)
      (hints : List Hint) (timeout : Int)
deriving DecidableEq, Repr

/-- `send_notification_via_connection_at_bus` of src/xdg/zbus_rs.rs:
branch on whether the resolved bus identity is the portal bus (string
comparison).  The portal branch self-allocates an identifier from `APP_ID`
when the supplied one is 0, encodes the portal dictionary, issues
`AddNotification` and returns the locally computed identifier; the legacy
branch issues `Notify` and returns the reply's u32.  The result carries the
returned identifier (or error), the request issued, and the process state
after the call. -/
def send_notification_via_connection_at_bus (notification : Notification)
    (id : Nat) (env : BusEnv) (readFile : String → Option (List Nat))
    (bus : NotificationBus) (s : ProcState) :
    Except DBusError Nat × SentRequest × ProcState :=
  if bus.as_str = NOTIFICATION_PORTAL_BUS then
    let alloc := if id = 0 then fetch_add s else (id, s)
    let id2 := alloc.1
    let s2 := alloc.2
    let dict := encodePortalDict notification readFile
    let req := SentRequest.addNotification bus (toString id2) dict
    match env.addReply with
    | Except.ok _ => (Except.ok id2, req, s2)
    | Except.error e => (Except.error e, req, s2)
  else
    let req := SentRequest.notify bus notification.appname id notification.icon
      notification.summary notification.body notification.actions
      notification.hints notification.timeout
    match env.notifyReply with
    | Except.ok reply => (Except.ok reply, req, s)
    | Except.error e => (Except.error e, req, s)

/-- `Result::is_ok_and`. -/
def isOkAnd {ε α : Type} (r : Except ε α) (p : α → Bool) : Bool :=
  match r with
  | Except.ok a => p a
  | Except.error _ => false

/-- The unforced bus selection, written identically in
`send_notification_via_connection` and `connect_and_send_notification`:
the portal bus identity exactly when the portal version probe
(`get_portal_version_via_connection`) succeeded with a version above 0,
the legacy default otherwise. -/
def selectBus (probe : Except DBusError Nat) : NotificationBus :=
  if isOkAnd probe (fun version => decide (0 < version)) then NotificationBus.portal
  else NotificationBus.defaultBus

/-- `send_notification_via_connection` of src/xdg/zbus_rs.rs: probe, select
the bus, send there. -/
def send_notification_via_connection (notification : Notification) (id : Nat)
    (probe : Except DBusError Nat) (env : BusEnv)
    (readFile : String → Option (List Nat)) (s : ProcState) :
    Except DBusError Nat × SentRequest × ProcState :=
  send_notification_via_connection_at_bus notification id env readFile (selectBus probe) s

/-- `ZbusNotificationHandle`: the identifier of a sent notification together
with the snapshot of the notification that produced it (the live connection
it also owns has no observable state here). -/
structure ZbusNotificationHandle where
  id : Nat
  notification : Notification
deriving DecidableEq, Repr

/-- `ZbusNotificationHandle::new`. -/
def ZbusNotificationHandle.new (id : Nat) (notification : Notification) :
    ZbusNotificationHandle :=
  ⟨id, notification⟩

/-- The `CloseNotification` request that `close_fallible` issues. -/
structure CloseRequest where
  bus : NotificationBus
  objectPath : String
  interface : String
  member : String
  id : Nat
deriving DecidableEq, Repr

/-- The request `close_fallible` builds: the bus identity stored in the
handle's notification snapshot, the legacy object path and interface,
member `CloseNotification`, and the handle's identifier. -/
def closeRequestOf (h : ZbusNotificationHandle) : CloseRequest :=
  { bus := h.notification.bus
    objectPath := NOTIFICATION_OBJECTPATH
    interface := NOTIFICATION_INTERFACE
    member := "CloseNotification"
    id := h.id }

/-- `ZbusNotificationHandle::close_fallible`: issue the close request and
propagate the call's outcome. -/
def close_fallible (h : ZbusNotificationHandle) (callReply : Except DBusError Unit) :
    Except DBusError Unit × CloseRequest :=
  (match callReply with
   | Except.ok _ => Except.ok ()
   | Except.error e => Except.error e,
   closeRequestOf h)

/-- `ZbusNotificationHandle::update_fallible`: resend through the probed
path with the stored identifier; on success overwrite the stored identifier
with whatever the resend returned, on error keep the handle unchanged. -/
def update_fallible (h : ZbusNotificationHandle) (probe : Except DBusError Nat)
    (env : BusEnv) (readFile : String → Option (List Nat)) (s : ProcState) :
    Except DBusError Unit × ZbusNotificationHandle × ProcState :=
  match send_notification_via_connection h.notification h.id probe env readFile s with
  | (Except.ok newId, _, s2) => (Except.ok (), { h with id := newId }, s2)
  | (Except.error e, _, s2) => (Except.error e, h, s2)

/-- `connect_and_send_notification` of src/xdg/zbus_rs.rs: open a session,
probe for the portal, send at the selected bus, and wrap the returned
identifier in a handle whose notification snapshot records the selected
bus (`Notification { bus, ..notification.clone() }`). -/
def connect_and_send_notification (notification : Notification)
    (session : Except DBusError Unit) (probe : Except DBusError Nat)
    (env : BusEnv) (readFile : String → Option (List Nat)) (s : ProcState) :
    Except DBusError ZbusNotificationHandle × ProcState :=
  match session with
  | Except.error e => (Except.error e, s)
  | Except.ok _ =>
    let inner_id := notification.id.getD 0
    let bus := selectBus probe
    match send_notification_via_connection_at_bus notification inner_id env readFile bus s with
    | (Except.ok id, _, s2) =>
      (Except.ok (ZbusNotificationHandle.new id { notification with bus := bus }), s2)
    | (Except.error e, _, s2) => (Except.error e, s2)

/-- `connect_and_send_notification_at_bus` of src/xdg/zbus_rs.rs: open a
session and send at the forced bus; the handle wraps `notification.clone()`
unchanged — in particular its `bus` field is not replaced by the forced
bus. -/
def connect_and_send_notification_at_bus (notification : Notification)
    (bus : NotificationBus) (session : Except DBusError Unit) (env : BusEnv)
    (readFile : String → Option (List Nat)) (s : ProcState) :
    Except DBusError ZbusNotificationHandle × ProcState :=
  match session with
  | Except.error e => (Except.error e, s)
  | Except.ok _ =>
    let inner_id := notification.id.getD 0
    match send_notification_via_connection_at_bus notification inner_id env readFile bus s with
    | (Except.ok id, _, s2) => (Except.ok (ZbusNotificationHandle.new id notification), s2)
    | (Except.error e, _, s2) => (Except.error e, s2)

/-- `zbus::MessageType`. -/
inductive MessageType
  | methodCall
  | methodReturn
  | error
  | signal
deriving DecidableEq, Repr

/-- A message pulled from the connection's signal stream, as the listener
inspects it: the header's type and member name, and the outcomes of the two
body deserializations the listener may attempt
(`deserialize::<(u32, String)>` and `deserialize::<(u32, u32)>`); `none`
means the body fails to decode into that shape. -/
structure Message where
  msgType : MessageType
  member : Option String
  bodyU32String : Option (Nat × String)
  bodyU32U32 : Option (Nat × Nat)
deriving DecidableEq, Repr

/-- The `while let Ok(Some(msg))` loop of `wait_for_action_signal`
(src/xdg/zbus_rs.rs): pull messages until the first well-formed
`ActionInvoked` or `NotificationClosed` signal whose identifier equals the
target, then stop.  The stream is a finite list (its end covers both
`Ok(None)` and `Err` from `try_next`); the result is the response the
handler was invoked with (`none` when the stream ended first) together
with the messages left unconsumed. -/
def wait_for_action_signal_loop (id : Nat) :
    List Message → Option ActionResponse × List Message
  | [] => (none, [])
  | msg :: rest =>
    if msg.msgType = MessageType.signal then
      match msg.member with
      | some name =>
        if name = "ActionInvoked" then
          match msg.bodyU32String with
          | some (nid, action) =>
            if nid = id then (some (ActionResponse.custom action), rest)
            else wait_for_action_signal_loop id rest
          | none => wait_for_action_signal_loop id rest
        else if name = "NotificationClosed" then
          match msg.bodyU32U32 with
          | some (nid, reason) =>
            if nid = id then
              (some (ActionResponse.closed (CloseReason.fromCode reason)), rest)
            else wait_for_action_signal_loop id rest
          | none => wait_for_action_signal_loop id rest
        else wait_for_action_signal_loop id rest
      | none => wait_for_action_signal_loop id rest
    else wait_for_action_signal_loop id rest

/-- Whether one message would fire the handler, and with what response:
the per-message filter the loop applies, read off the same source lines. -/
def sigMatch (id : Nat) (msg : Message) : Option ActionResponse :=
  if msg.msgType = MessageType.signal then
    match msg.member with
    | some name =>
      if name = "ActionInvoked" then
        match msg.bodyU32String with
        | some (nid, action) =>
          if nid = id then some (ActionResponse.custom action) else none
        | none => none
      else if name = "NotificationClosed" then
        match msg.bodyU32U32 with
        | some (nid, reason) =>
          if nid = id then some (ActionResponse.closed (CloseReason.fromCode reason))
          else none
        | none => none
      else none
    | none => none
  else none

/-- The outcome of an operation that may abort the calling thread: a value,
or a panic (an `unwrap` on an error). -/
inductive Outcome (α : Type)
  | ok (value : α)
  | panicked
deriving DecidableEq, Repr

/-- `wait_for_action_signal` of src/xdg/zbus_rs.rs including its
subscription phase: `DBusProxy::new(..).unwrap()` and the two
`add_match_rule(..).unwrap()` calls panic on error; only then does the
listening loop run.  The three subscription outcomes are passed in. -/
def wait_for_action_signal (proxyNew addActionRule addCloseRule : Except DBusError Unit)
    (id : Nat) (msgs : List Message) :
    Outcome (Option ActionResponse × List Message) :=
  match proxyNew with
  | Except.error _ => Outcome.panicked
  | Except.ok _ =>
    match addActionRule with
    | Except.error _ => Outcome.panicked
    | Except.ok _ =>
      match addCloseRule with
      | Except.error _ => Outcome.panicked
      | Except.ok _ => Outcome.ok (wait_for_action_signal_loop id msgs)

/-- `handle_action` of src/xdg/zbus_rs.rs:
`zbus::Connection::session().await.unwrap()` panics on a session error,
then the listener runs. -/
def handle_action (session : Except DBusError Unit)
    (proxyNew addActionRule addCloseRule : Except DBusError Unit)
    (id : Nat) (msgs : List Message) :
    Outcome (Option ActionResponse × List Message) :=
  match session with
  | Except.error _ => Outcome.panicked
  | Except.ok _ => wait_for_action_signal proxyNew addActionRule addCloseRule id msgs

/-- `ZbusNotificationHandle::close`: `close_fallible(..).unwrap()`. -/
def close (h : ZbusNotificationHandle) (callReply : Except DBusError Unit) :
    Outcome Unit :=
  match (close_fallible h callReply).1 with
  | Except.ok _ => Outcome.ok ()
  | Except.error _ => Outcome.panicked

/-- `ZbusNotificationHandle::update`: `update_fallible().unwrap()`. -/
def update (h : ZbusNotificationHandle) (probe : Except DBusError Nat)
    (env : BusEnv) (readFile : String → Option (List Nat)) (s : ProcState) :
    Outcome (ZbusNotificationHandle × ProcState) :=
  match update_fallible h probe env readFile s with
  | (Except.ok _, h2, s2) => Outcome.ok (h2, s2)
  | (Except.error _, _, _) => Outcome.panicked

/-- A bus environment whose two replies both succeed (the `Notify` reply
echoing identifier 7). -/
def okEnv : BusEnv :=
  { notifyReply := Except.ok 7, addReply := Except.ok () }

/-- A filesystem on which every read fails. -/
def emptyRead : String → Option (List Nat) :=
  fun _ => none

/-- A concrete notification with no pre-assigned identifier, carried on the
legacy default bus. -/
def demoNotification : Notification :=
  { appname := "app"
    summary := "summary"
    body := "body"
    icon := "dialog-information"
    actions := []
    hints := []
    timeout := -1
    id := some 0
    bus := NotificationBus.defaultBus }

/-- A concrete notification with an empty icon name and an image-path hint. -/
def demoEmptyIconNotification : Notification :=
  { appname := "app"
    summary := "summary"
    body := "body"
    icon := ""
    actions := []
    hints := [Hint.imagePath "/tmp/image.png"]
    timeout := -1
    id := some 0
    bus := NotificationBus.defaultBus }

/-- The identifiers returned by `n` successive portal-branch sends with
supplied identifier 0, threading the process-wide counter, every
`AddNotification` call succeeding. -/
def portalSelfAllocTrace : ProcState → Nat → List Nat
  | _, 0 => []
  | s, n + 1 =>
    match send_notification_via_connection_at_bus demoNotification 0 okEnv emptyRead
        NotificationBus.portal s with
    | (Except.ok i, _, s2) => i :: portalSelfAllocTrace s2 n
    | (Except.error _, _, s2) => portalSelfAllocTrace s2 n

/-! ## Helper lemmas -/

lemma defaultBus_ne_portal : NotificationBus.defaultBus ≠ NotificationBus.portal := by
  decide

lemma portal_as_str : NotificationBus.portal.as_str = NOTIFICATION_PORTAL_BUS := rfl

lemma defaultBus_as_str_ne :
    ¬ NotificationBus.defaultBus.as_str = NOTIFICATION_PORTAL_BUS := by
  decide

lemma selectBus_error (e : DBusError) :
    selectBus (Except.error e) = NotificationBus.defaultBus := rfl

lemma selectBus_ok_pos (v : Nat) (h : 0 < v) :
    selectBus (Except.ok v) = NotificationBus.portal := by
  simp [selectBus, isOkAnd, h]

lemma selectBus_ok_zero (v : Nat) (h : ¬ 0 < v) :
    selectBus (Except.ok v) = NotificationBus.defaultBus := by
  simp [selectBus, isOkAnd, h]

lemma connect_eq (notification : Notification) (session : Except DBusError Unit)
    (probe : Except DBusError Nat) (env : BusEnv)
    (readFile : String → Option (List Nat)) (s : ProcState) :
    connect_and_send_notification notification session probe env readFile s
      = match session with
        | Except.error e => (Except.error e, s)
        | Except.ok _ =>
          match send_notification_via_connection_at_bus notification
              (notification.id.getD 0) env readFile (selectBus probe) s with
          | (Except.ok id, _, s2) =>
            (Except.ok (ZbusNotificationHandle.new id
              { notification with bus := selectBus probe }), s2)
          | (Except.error e, _, s2) => (Except.error e, s2) := rfl

lemma connect_at_bus_eq (notification : Notification) (bus : NotificationBus)
    (session : Except DBusError Unit) (env : BusEnv)
    (readFile : String → Option (List Nat)) (s : ProcState) :
    connect_and_send_notification_at_bus notification bus session env readFile s
      = match session with
        | Except.error e => (Except.error e, s)
        | Except.ok _ =>
          match send_notification_via_connection_at_bus notification
              (notification.id.getD 0) env readFile bus s with
          | (Except.ok id, _, s2) =>
            (Except.ok (ZbusNotificationHandle.new id notification), s2)
          | (Except.error e, _, s2) => (Except.error e, s2) := rfl

lemma send_at_bus_fst_ok (notification : Notification) (id : Nat) (env : BusEnv)
    (readFile : String → Option (List Nat)) (bus : NotificationBus) (s : ProcState)
    (haddok : env.addReply = Except.ok ()) (r : Nat)
    (hnotify : env.notifyReply = Except.ok r) :
    ∃ n, (send_notification_via_connection_at_bus notification id env readFile bus s).1
      = Except.ok n := by
  by_cases hb : bus.as_str = NOTIFICATION_PORTAL_BUS <;>
    simp [send_notification_via_connection_at_bus, hb, haddok, hnotify]

/-! ## C2: unforced bus selection -/

/-- C2: for every unforced send the selected bus is the portal identity
exactly when the portal version probe succeeded with a version above 0;
every probe failure and a version of 0 select the legacy default identity;
the selection always produces one of the two identities, and with a healthy
bus environment the send succeeds whatever the probe did — a probe failure
is never propagated to the caller. -/
theorem bus_selection_policy (probe : Except DBusError Nat) :
    (selectBus probe = NotificationBus.portal ↔ ∃ v, probe = Except.ok v ∧ 0 < v)
    ∧ (selectBus probe = NotificationBus.portal ∨ selectBus probe = NotificationBus.defaultBus)
    ∧ (∀ (notification : Notification) (env : BusEnv)
        (readFile : String → Option (List Nat)) (s : ProcState),
        env.addReply = Except.ok () → (∃ r, env.notifyReply = Except.ok r) →
        ∃ h, (connect_and_send_notification notification (Except.ok ()) probe env readFile s).1
          = Except.ok h) := by
  have hmain : ∀ (notification : Notification) (env : BusEnv)
      (readFile : String → Option (List Nat)) (s : ProcState),
      env.addReply = Except.ok () → (∃ r, env.notifyReply = Except.ok r) →
      ∃ h, (connect_and_send_notification notification (Except.ok ()) probe env readFile s).1
        = Except.ok h := by
    intro notification env readFile s haddok ⟨r, hnotify⟩
    obtain ⟨n, hn⟩ := send_at_bus_fst_ok notification (notification.id.getD 0) env readFile
      (selectBus probe) s haddok r hnotify
    rw [connect_eq]
    rcases hsend : send_notification_via_connection_at_bus notification
        (notification.id.getD 0) env readFile (selectBus probe) s with ⟨res, req, s2⟩
    rw [hsend] at hn
    simp only at hn
    subst hn
    exact ⟨_, rfl⟩
  refine ⟨?_, ?_, hmain⟩
  · cases probe with
    | error e =>
      rw [selectBus_error]
      constructor
      · intro h
        exact absurd h defaultBus_ne_portal
      · rintro ⟨v, hv, _⟩
        exact Except.noConfusion hv
    | ok v =>
      by_cases hv : 0 < v
      · rw [selectBus_ok_pos v hv]
        exact ⟨fun _ => ⟨v, rfl, hv⟩, fun _ => rfl⟩
      · rw [selectBus_ok_zero v hv]
        constructor
        · intro h
          exact absurd h defaultBus_ne_portal
        · rintro ⟨w, hw, hw0⟩
          cases hw
          exact absurd hw0 hv
  · cases probe with
    | error e => exact Or.inr (selectBus_error e)
    | ok v =>
      by_cases hv : 0 < v
      · exact Or.inl (selectBus_ok_pos v hv)
      · exact Or.inr (selectBus_ok_zero v hv)

/-! ## C4: the portal branch returns the locally computed identifier -/

/-- C4: a successful portal-branch send returns the locally computed
identifier — the counter value fetched when the supplied identifier is 0,
the supplied identifier otherwise; the successful `AddNotification` reply
carries no value that could influence it. -/
theorem portal_send_returns_local_id (notification : Notification) (id : Nat)
    (env : BusEnv) (readFile : String → Option (List Nat)) (s : ProcState)
    (hok : env.addReply = Except.ok ()) :
    (send_notification_via_connection_at_bus notification id env readFile
        NotificationBus.portal s).1
      = Except.ok (if id = 0 then s.appId else id) := by
  by_cases h : id = 0 <;>
    simp [send_notification_via_connection_at_bus, fetch_add, hok, h, portal_as_str]

/-- Witness for C4 at a concrete input: the demo notification with supplied
identifier 0 and seeded state returns identifier 1. -/
theorem portal_send_returns_local_id_witness :
    (send_notification_via_connection_at_bus demoNotification 0 okEnv emptyRead
        NotificationBus.portal initState).1
      = Except.ok (if 0 = 0 then initState.appId else 0) :=
  portal_send_returns_local_id demoNotification 0 okEnv emptyRead initState rfl

/-! ## C10: nonzero-identifier portal sends do not touch the counter -/

/-- C10: a portal-branch send with a nonzero supplied identifier leaves the
process-wide counter state unchanged, while a send with supplied identifier
0 advances it by one (wrapping as a u32) — so interleaved nonzero sends
never perturb the self-allocated sequence. -/
theorem portal_send_nonzero_id_preserves_counter (notification : Notification)
    (id : Nat) (env : BusEnv) (readFile : String → Option (List Nat))
    (s : ProcState) (hnz : id ≠ 0) :
    (send_notification_via_connection_at_bus notification id env readFile
        NotificationBus.portal s).2.2 = s
    ∧ (send_notification_via_connection_at_bus notification 0 env readFile
        NotificationBus.portal s).2.2 = ⟨(s.appId + 1) % 2 ^ 32⟩ := by
  cases henv : env.addReply <;>
    simp [send_notification_via_connection_at_bus, fetch_add, henv, hnz, portal_as_str]

/-- Witness for C10 at a concrete input: identifier 5 leaves the seeded
state unchanged, identifier 0 advances it to 2. -/
theorem portal_send_nonzero_id_preserves_counter_witness :
    (send_notification_via_connection_at_bus demoNotification 5 okEnv emptyRead
        NotificationBus.portal initState).2.2 = initState
    ∧ (send_notification_via_connection_at_bus demoNotification 0 okEnv emptyRead
        NotificationBus.portal initState).2.2 = ⟨(initState.appId + 1) % 2 ^ 32⟩ :=
  portal_send_nonzero_id_preserves_counter demoNotification 5 okEnv emptyRead initState
    (by decide)

/-! ## C8: icon fallback in the portal encoding -/

/-- C8: with an empty icon name, the portal icon payload is the inline-bytes
form when an image-path hint names a readable file; when the hint is absent
or the read fails it stays the themed form with the empty name; and the
send's success or failure never depends on the filesystem — a read failure
is never surfaced and never aborts the send. -/
theorem portal_icon_fallback (notification : Notification)
    (readFile readFile2 : String → Option (List Nat)) (env : BusEnv) (id : Nat)
    (s : ProcState) (p : String) (d : List Nat) (hicon : notification.icon = "") :
    (findImagePathHint notification = some (Hint.imagePath p) → readFile p = some d →
      encodeIcon notification readFile = IconPayload.bytes d)
    ∧ (findImagePathHint notification = some (Hint.imagePath p) → readFile p = none →
      encodeIcon notification readFile = IconPayload.themed [""])
    ∧ (findImagePathHint notification = none →
      encodeIcon notification readFile = IconPayload.themed [""])
    ∧ (send_notification_via_connection_at_bus notification id env readFile
        NotificationBus.portal s).1
      = (send_notification_via_connection_at_bus notification id env readFile2
        NotificationBus.portal s).1 := by
  refine ⟨?_, ?_, ?_, ?_⟩
  · intro hfind hread
    simp [encodeIcon, hicon, hfind, hread]
  · intro hfind hread
    simp [encodeIcon, hicon, hfind, hread]
  · intro hfind
    simp [encodeIcon, hicon, hfind]
  · cases henv : env.addReply <;>
      by_cases h : id = 0 <;>
        simp [send_notification_via_connection_at_bus, fetch_add, henv, h, portal_as_str]

/-- Witness for C8 at a concrete input: the demo notification with empty
icon and an unreadable image path encodes the themed empty icon. -/
theorem portal_icon_fallback_witness :
    encodeIcon demoEmptyIconNotification emptyRead = IconPayload.themed [""] :=
  (portal_icon_fallback demoEmptyIconNotification emptyRead emptyRead okEnv 0 initState
    "/tmp/image.png" [] rfl).2.1 rfl rfl

/-! ## C5: the legacy branch returns the server's reply value -/

/-- C5: a legacy-branch send returns exactly the u32 of the server's
`Notify` reply, whatever identifier was supplied; consequently a successful
`update_fallible` on a handle through the legacy selection stores the
identifier the resend returned, replacing the previously stored one. -/
theorem legacy_send_and_update_use_reply (notification : Notification)
    (hd : ZbusNotificationHandle) (id r : Nat) (probe : Except DBusError Nat)
    (env : BusEnv) (readFile : String → Option (List Nat)) (s : ProcState)
    (hbus : selectBus probe = NotificationBus.defaultBus)
    (hreply : env.notifyReply = Except.ok r) :
    (send_notification_via_connection_at_bus notification id env readFile
        NotificationBus.defaultBus s).1 = Except.ok r
    ∧ (update_fallible hd probe env readFile s).1 = Except.ok ()
    ∧ (update_fallible hd probe env readFile s).2.1.id = r := by
  have hsend : ∀ (n2 : Notification) (id2 : Nat),
      send_notification_via_connection_at_bus n2 id2 env readFile
        NotificationBus.defaultBus s
      = (Except.ok r,
         SentRequest.notify NotificationBus.defaultBus n2.appname id2 n2.icon
           n2.summary n2.body n2.actions n2.hints n2.timeout, s) := by
    intro n2 id2
    simp [send_notification_via_connection_at_bus, defaultBus_as_str_ne, hreply]
  refine ⟨by rw [hsend], ?_, ?_⟩ <;>
    simp [update_fallible, send_notification_via_connection, hbus, hsend]

/-- Witness for C5 at a concrete input: a handle storing identifier 3,
updated through a failed probe (legacy selection) against a server echoing
7, ends up storing 7. -/
theorem legacy_send_and_update_use_reply_witness :
    (send_notification_via_connection_at_bus demoNotification 3 okEnv emptyRead
        NotificationBus.defaultBus initState).1 = Except.ok 7
    ∧ (update_fallible (ZbusNotificationHandle.new 3 demoNotification)
        (Except.error ⟨"no portal"⟩) okEnv emptyRead initState).1 = Except.ok ()
    ∧ (update_fallible (ZbusNotificationHandle.new 3 demoNotification)
        (Except.error ⟨"no portal"⟩) okEnv emptyRead initState).2.1.id = 7 :=
  legacy_send_and_update_use_reply demoNotification
    (ZbusNotificationHandle.new 3 demoNotification) 3 7 (Except.error ⟨"no portal"⟩)
    okEnv emptyRead initState rfl rfl

/-! ## C6: custom bus-address construction -/

/-- C6 counterexample: constructing a custom bus address from `"/test/bus"`
does not yield the name `"de.hoodie.Notification.test.bus"` — the leading
separator makes the input absolute, the path join replaces the prefix, and
the produced name is `"test.bus"`. -/
theorem custom_bus_leading_slash_counterexample :
    NotificationBus.custom "/test/bus" = some ⟨"test.bus"⟩
    ∧ NotificationBus.custom "/test/bus" ≠ some ⟨"de.hoodie.Notification.test.bus"⟩ := by
  constructor
  · decide
  · decide

/-- C6 as amended: from `"test/bus"` the construction yields the namespaced
name `"de.hoodie.Notification.test.bus"`; from `"/test/bus"` the absolute
input replaces the namespace prefix in the join and the construction yields
`"test.bus"` — the construction is not idempotent with respect to a leading
separator. -/
theorem custom_bus_construction :
    NotificationBus.custom "test/bus" = some ⟨"de.hoodie.Notification.test.bus"⟩
    ∧ NotificationBus.custom "/test/bus" = some ⟨"test.bus"⟩ := by
  constructor
  · decide
  · decide

/-! ## C7: which bus identity the handle records and close targets -/

/-- C7 counterexample: a handle created through the forced-bus path at the
portal bus, from a notification carrying the default bus identity, holds a
snapshot whose bus identity is still the default — not the portal bus that
served the send — and its close request targets that default identity. -/
theorem handle_bus_recording_counterexample :
    (connect_and_send_notification_at_bus demoNotification NotificationBus.portal
        (Except.ok ()) okEnv emptyRead initState).1
      = Except.ok (ZbusNotificationHandle.new 1 demoNotification)
    ∧ (ZbusNotificationHandle.new 1 demoNotification).notification.bus
        ≠ NotificationBus.portal
    ∧ (closeRequestOf (ZbusNotificationHandle.new 1 demoNotification)).bus
        ≠ NotificationBus.portal := by
  refine ⟨rfl, ?_, ?_⟩
  · decide
  · decide

/-- C7 as amended: close always issues `CloseNotification` with the bus
identity stored in the handle's notification snapshot and with the handle's
identifier; the unforced send path records the serving bus identity in that
snapshot, but the forced-bus path stores the notification unchanged, so its
snapshot keeps the notification's pre-existing bus identity, which need not
be the forced bus that served the send. -/
theorem handle_bus_recording (notification : Notification)
    (probe : Except DBusError Nat) (env : BusEnv)
    (readFile : String → Option (List Nat)) (s : ProcState)
    (bus : NotificationBus) :
    (∀ h, (connect_and_send_notification notification (Except.ok ()) probe env
        readFile s).1 = Except.ok h →
      h.notification.bus = selectBus probe
      ∧ (closeRequestOf h).bus = selectBus probe
      ∧ (closeRequestOf h).id = h.id)
    ∧ (∀ h, (connect_and_send_notification_at_bus notification bus (Except.ok ())
        env readFile s).1 = Except.ok h →
      h.notification.bus = notification.bus
      ∧ (closeRequestOf h).bus = notification.bus
      ∧ (closeRequestOf h).id = h.id) := by
  constructor
  · intro h hok
    rw [connect_eq] at hok
    rcases hsend : send_notification_via_connection_at_bus notification
        (notification.id.getD 0) env readFile (selectBus probe) s with ⟨res, req, s2⟩
    rw [hsend] at hok
    cases res with
    | ok n =>
      simp only [Except.ok.injEq] at hok
      subst hok
      exact ⟨rfl, rfl, rfl⟩
    | error e => simp at hok
  · intro h hok
    rw [connect_at_bus_eq] at hok
    rcases hsend : send_notification_via_connection_at_bus notification
        (notification.id.getD 0) env readFile bus s with ⟨res, req, s2⟩
    rw [hsend] at hok
    cases res with
    | ok n =>
      simp only [Except.ok.injEq] at hok
      subst hok
      exact ⟨rfl, rfl, rfl⟩
    | error e => simp at hok

/-! ## C9: what may abort and what must not -/

/-- C9 counterexample: the signal-listening path itself can abort — a
failed session connection in `handle_action` and a failed proxy creation in
`wait_for_action_signal` both panic (an `unwrap` on an error), so the
listening path is not abort-free as claimed. -/
theorem signal_path_abort_counterexample :
    handle_action (Except.error ⟨"session failed"⟩) (Except.ok ()) (Except.ok ())
      (Except.ok ()) 1 [] = Outcome.panicked
    ∧ wait_for_action_signal (Except.error ⟨"proxy failed"⟩) (Except.ok ())
      (Except.ok ()) 1 [] = Outcome.panicked :=
  ⟨rfl, rfl⟩

/-- C9 as amended: the fallible core returns errors instead of aborting,
and the listening loop, once the subscription is in place, never aborts;
but besides the opt-in panicking variants `close` and `update` (which abort
exactly when their fallible counterparts err), the signal path's setup also
aborts on failure: the session connection in `handle_action` and the proxy
creation or match-rule registration in `wait_for_action_signal`. -/
theorem abort_discipline (p a1 a2 : Except DBusError Unit) (e : DBusError)
    (id : Nat) (msgs : List Message) (hd : ZbusNotificationHandle)
    (probe : Except DBusError Nat) (env : BusEnv)
    (readFile : String → Option (List Nat)) (s : ProcState) :
    wait_for_action_signal (Except.ok ()) (Except.ok ()) (Except.ok ()) id msgs
      = Outcome.ok (wait_for_action_signal_loop id msgs)
    ∧ (wait_for_action_signal p a1 a2 id msgs = Outcome.panicked
        ∨ wait_for_action_signal p a1 a2 id msgs
          = Outcome.ok (wait_for_action_signal_loop id msgs))
    ∧ close hd (Except.ok ()) = Outcome.ok ()
    ∧ close hd (Except.error e) = Outcome.panicked
    ∧ (close_fallible hd (Except.error e)).1 = Except.error e
    ∧ (update hd probe env readFile s = Outcome.panicked
        ↔ ∃ e2, (update_fallible hd probe env readFile s).1 = Except.error e2)
    ∧ handle_action (Except.error e) p a1 a2 id msgs = Outcome.panicked := by
  refine ⟨rfl, ?_, rfl, rfl, rfl, ?_, rfl⟩
  · cases p with
    | error e1 => exact Or.inl rfl
    | ok u =>
      cases a1 with
      | error e1 => exact Or.inl rfl
      | ok u1 =>
        cases a2 with
        | error e1 => exact Or.inl rfl
        | ok u2 => exact Or.inr rfl
  · unfold update
    rcases hupd : update_fallible hd probe env readFile s with ⟨res, h2, s2⟩
    cases res with
    | ok u => simp
    | error e2 => simp

/-! ## C3: the self-allocated portal identifier sequence -/

lemma send_portal_zero_step (s : ProcState) :
    send_notification_via_connection_at_bus demoNotification 0 okEnv emptyRead
      NotificationBus.portal s
    = (Except.ok s.appId,
       SentRequest.addNotification NotificationBus.portal (toString s.appId)
         (encodePortalDict demoNotification emptyRead),
       ⟨(s.appId + 1) % 2 ^ 32⟩) := by
  simp [send_notification_via_connection_at_bus, fetch_add, okEnv, portal_as_str]

lemma portalSelfAllocTrace_succ (s : ProcState) (n : Nat) :
    portalSelfAllocTrace s (n + 1)
      = s.appId :: portalSelfAllocTrace ⟨(s.appId + 1) % 2 ^ 32⟩ n := by
  rw [portalSelfAllocTrace, send_portal_zero_step]

lemma portalSelfAllocTrace_closed (n : Nat) : ∀ c : Nat, c < 2 ^ 32 →
    portalSelfAllocTrace ⟨c⟩ n = (List.range n).map (fun k => (c + k) % 2 ^ 32) := by
  induction n with
  | zero =>
    intro c _
    rfl
  | succ n ih =>
    intro c hc
    rw [portalSelfAllocTrace_succ]
    have h2 : (c + 1) % 2 ^ 32 < 2 ^ 32 := Nat.mod_lt _ (by norm_num)
    rw [ih _ h2, List.range_succ_eq_map]
    simp only [List.map_cons, List.map_map]
    congr 1
    · rw [Nat.add_zero, Nat.mod_eq_of_lt hc]
    · refine List.map_congr_left ?_
      intro k _
      simp only [Function.comp_apply, Nat.mod_add_mod]
      congr 1
      omega

/-- C3 counterexample: the shared counter is a u32 and wraps — in a trace of
`2 ^ 32` portal sends with supplied identifier 0 starting from the seeded
state, the first self-allocated identifier is 1 but the last is 0, so the
last returned identifier is not strictly greater than an earlier one. -/
theorem portal_counter_wrap_counterexample :
    (portalSelfAllocTrace initState (2 ^ 32)).getD 0 0 = 1
    ∧ (portalSelfAllocTrace initState (2 ^ 32)).getD (2 ^ 32 - 1) 0 = 0
    ∧ ¬ ((portalSelfAllocTrace initState (2 ^ 32)).getD 0 0
          < (portalSelfAllocTrace initState (2 ^ 32)).getD (2 ^ 32 - 1) 0) := by
  have h := portalSelfAllocTrace_closed (2 ^ 32) 1 (by norm_num)
  have hinit : initState = (⟨1⟩ : ProcState) := rfl
  have hget : ∀ i : Nat, i < 2 ^ 32 →
      (portalSelfAllocTrace initState (2 ^ 32)).getD i 0 = (1 + i) % 2 ^ 32 := by
    intro i hi
    rw [hinit, h, List.getD_eq_getElem?_getD, List.getElem?_map,
      List.getElem?_range hi]
    rfl
  have h0 : (portalSelfAllocTrace initState (2 ^ 32)).getD 0 0 = 1 := by
    rw [hget 0 (by norm_num)]
    omega
  have hlast : (portalSelfAllocTrace initState (2 ^ 32)).getD (2 ^ 32 - 1) 0 = 0 := by
    rw [hget (2 ^ 32 - 1) (by norm_num)]
    omega
  refine ⟨h0, hlast, ?_⟩
  rw [h0, hlast]
  omega

/-- C3 as amended: the counter is process-wide, shared by all portal sends,
seeded at 1 (so the first self-allocated identifier is 1), and as long as
the process performs fewer than `2 ^ 32` self-allocations the returned
identifiers are strictly increasing; at the `2 ^ 32`-th self-allocation the
u32 counter wraps and strict monotonicity fails. -/
theorem portal_counter_monotonic (n : Nat) (h : n < 2 ^ 32) :
    (portalSelfAllocTrace initState n).Pairwise (· < ·)
    ∧ (0 < n → (portalSelfAllocTrace initState n).getD 0 0 = 1) := by
  have hinit : initState = (⟨1⟩ : ProcState) := rfl
  have hcl := portalSelfAllocTrace_closed n 1 (by norm_num)
  rw [hinit, hcl]
  constructor
  · rw [List.pairwise_map]
    refine List.Pairwise.imp_of_mem ?_ (List.pairwise_lt_range n)
    intro a b ha hb hab
    rw [List.mem_range] at ha hb
    have ha2 : (1 + a) % 2 ^ 32 = 1 + a := Nat.mod_eq_of_lt (by omega)
    have hb2 : (1 + b) % 2 ^ 32 = 1 + b := Nat.mod_eq_of_lt (by omega)
    rw [ha2, hb2]
    omega
  · intro hn
    cases n with
    | zero => exact absurd hn (by omega)
    | succ n =>
      rw [List.range_succ_eq_map]
      simp

/-- Witness for C3's amended theorem at a concrete input: three
self-allocating portal sends return the strictly increasing 1, 2, 3. -/
theorem portal_counter_monotonic_witness :
    (portalSelfAllocTrace initState 3).Pairwise (· < ·)
    ∧ (0 < 3 → (portalSelfAllocTrace initState 3).getD 0 0 = 1) :=
  portal_counter_monotonic 3 (by norm_num)

/-! ## C1: the signal listener fires at most once, on the first match -/

/-- The wire-level description of a message that fires the handler for
target `id`: a well-formed `ActionInvoked` signal with body `(id, action)`
yielding the Custom response, or a well-formed `NotificationClosed` signal
with body `(id, reason)` yielding the Closed response with the mapped
reason. -/
def MatchesSignal (id : Nat) (m : Message) (r : ActionResponse) : Prop :=
  m.msgType = MessageType.signal
  ∧ ((∃ action, m.member = some "ActionInvoked"
        ∧ m.bodyU32String = some (id, action)
        ∧ r = ActionResponse.custom action)
     ∨ (∃ reason, m.member = some "NotificationClosed"
        ∧ m.bodyU32U32 = some (id, reason)
        ∧ r = ActionResponse.closed (CloseReason.fromCode reason)))

lemma sigMatch_eq_some_iff (id : Nat) (m : Message) (r : ActionResponse) :
    sigMatch id m = some r ↔ MatchesSignal id m r := by
  rcases m with ⟨t, mem, b1, b2⟩
  cases t <;> simp only [sigMatch, MatchesSignal] <;>
    try (simp; done)
  cases mem with
  | none => simp
  | some name =>
    by_cases h1 : name = "ActionInvoked"
    · subst h1
      cases b1 with
      | none => simp
      | some pr =>
        obtain ⟨nid, action⟩ := pr
        by_cases hn : nid = id
        · subst hn
          simp [eq_comm]
        · simp [hn]
    · by_cases h2 : name = "NotificationClosed"
      · subst h2
        cases b2 with
        | none => simp
        | some pr =>
          obtain ⟨nid, reason⟩ := pr
          by_cases hn : nid = id
          · subst hn
            simp [eq_comm]
          · simp [hn]
      · simp [h1, h2]

lemma wait_loop_cons (id : Nat) (msg : Message) (rest : List Message) :
    wait_for_action_signal_loop id (msg :: rest)
      = match sigMatch id msg with
        | some r => (some r, rest)
        | none => wait_for_action_signal_loop id rest := by
  rcases msg with ⟨t, mem, b1, b2⟩
  cases t <;> try (simp [wait_for_action_signal_loop, sigMatch]; done)
  cases mem with
  | none => simp [wait_for_action_signal_loop, sigMatch]
  | some name =>
    by_cases h1 : name = "ActionInvoked"
    · subst h1
      cases b1 with
      | none => simp [wait_for_action_signal_loop, sigMatch]
      | some pr =>
        obtain ⟨nid, action⟩ := pr
        by_cases hn : nid = id <;>
          simp [wait_for_action_signal_loop, sigMatch, hn]
    · by_cases h2 : name = "NotificationClosed"
      · subst h2
        cases b2 with
        | none => simp [wait_for_action_signal_loop, sigMatch, h1]
        | some pr =>
          obtain ⟨nid, reason⟩ := pr
          by_cases hn : nid = id <;>
            simp [wait_for_action_signal_loop, sigMatch, h1, hn]
      · simp [wait_for_action_signal_loop, sigMatch, h1, h2]

lemma wait_loop_first_match (id : Nat) (msgs : List Message) :
    ((∀ m, m ∈ msgs → sigMatch id m = none)
      ∧ wait_for_action_signal_loop id msgs = (none, []))
    ∨ (∃ pre m post r, msgs = pre ++ m :: post
        ∧ (∀ m2, m2 ∈ pre → sigMatch id m2 = none)
        ∧ sigMatch id m = some r
        ∧ wait_for_action_signal_loop id msgs = (some r, post)) := by
  induction msgs with
  | nil =>
    refine Or.inl ⟨?_, rfl⟩
    intro m hm
    cases hm
  | cons m rest ih =>
    cases hm : sigMatch id m with
    | some r =>
      refine Or.inr ⟨[], m, rest, r, rfl, ?_, hm, ?_⟩
      · intro m2 hm2
        cases hm2
      · rw [wait_loop_cons, hm]
    | none =>
      rcases ih with ⟨hall, hres⟩ | ⟨pre, m2, post, r, heq, hpre, hm2, hres⟩
      · refine Or.inl ⟨?_, ?_⟩
        · intro x hx
          rcases List.mem_cons.mp hx with h | h
          · rw [h]
            exact hm
          · exact hall x h
        · rw [wait_loop_cons, hm, hres]
      · refine Or.inr ⟨m :: pre, m2, post, r, ?_, ?_, hm2, ?_⟩
        · rw [heq]
          rfl
        · intro x hx
          rcases List.mem_cons.mp hx with h | h
          · rw [h]
            exact hm
          · exact hpre x h
        · rw [wait_loop_cons, hm, hres]

/-- C1: the per-message filter fires exactly on well-formed `ActionInvoked`
or `NotificationClosed` signals whose identifier equals the target,
delivering the Custom or mapped-Closed response; and on every stream the
listening loop either finds no matching message, consumes the whole stream
and returns without a response, or splits the stream at the first matching
message, returns exactly that message's response, and leaves every later
message unconsumed — so the handler is invoked at most once, for the first
match only. -/
theorem wait_for_action_signal_first_match (id : Nat) (msgs : List Message) :
    (∀ m r, sigMatch id m = some r ↔ MatchesSignal id m r)
    ∧ (((∀ m, m ∈ msgs → sigMatch id m = none)
          ∧ wait_for_action_signal_loop id msgs = (none, []))
       ∨ (∃ pre m post r, msgs = pre ++ m :: post
            ∧ (∀ m2, m2 ∈ pre → sigMatch id m2 = none)
            ∧ sigMatch id m = some r
            ∧ wait_for_action_signal_loop id msgs = (some r, post))) :=
  ⟨fun m r => sigMatch_eq_some_iff id m r, wait_loop_first_match id msgs⟩

end NotifyRust
